import Mathlib

/-!
Shallow embedding of the Device/Image Registry and Deployment Orchestrator
implemented in `src/thin-client/boot/device_manager.py` (class `DeviceManager`).

Modelling conventions:
* Python byte strings are `List Nat`; SHA-256 is modelled as an explicit
  function parameter `hash : Bytes → String` producing the hex digest
  (the source streams the file through `hashlib.sha256` and uses
  `hexdigest()`; the chunking is incidental).
* The SQLite tables `devices`, `images`, `deployments` are lists of rows in
  insertion (rowid) order.  `INSERT OR REPLACE` on a table with UNIQUE
  columns deletes every conflicting row and appends the new one, which is
  modelled by `filter` followed by append.
* The filesystem is a pair of association lists: byte files (image
  artifacts) and text files (PXE configuration, USB package scripts); the
  newest binding for a path is the file's contents.
* Timestamps (`datetime.now()`, SQLite `CURRENT_TIMESTAMP`) are passed in
  as explicit string parameters.
* Python string methods used by the source (`.lower()`, single-character
  `.replace(..)`, slicing `[:8]`, `Path(..).name`) are modelled character
  by character so that every definition evaluates inside the kernel.
* The best-effort DHCP-reservation side effect (`create_dhcp_reservation`)
  writes an external dnsmasq file and restarts an external service; its
  failure is swallowed and it never influences the result or the database,
  so it is left outside the modelled state.
-/

namespace DeviceManager

/-- Contents of a binary file, one `Nat` per byte. -/
abbrev Bytes := List Nat

/-- Python `s.lower()` (ASCII). -/
def lowerStr (s : String) : String := String.mk (s.data.map Char.toLower)

/-- Python `s.replace(c, '')` for a one-character pattern `c`. -/
def stripChar (s : String) (c : Char) : String :=
  String.mk (s.data.filter (fun ch => ch ≠ c))

/-- Python `s.replace(c, r)` for one-character pattern and replacement. -/
def replaceCharWith (s : String) (c r : Char) : String :=
  String.mk (s.data.map (fun ch => if ch = c then r else ch))

/-- Python slicing `s[:n]` (ASCII). -/
def takeStr (s : String) (n : Nat) : String := String.mk (s.data.take n)

/-- Python `Path(p).name`: the part of the path after the last slash. -/
def baseName (p : String) : String :=
  String.mk ((p.data.reverse.takeWhile (fun c => c ≠ '/')).reverse)

/-- Look a path up in an association-list file store. -/
def lookupFile {α : Type} (fs : List (String × α)) (p : String) : Option α :=
  (fs.find? (fun kv => kv.1 == p)).map (·.2)

/-- Write (create or overwrite) the file at path `p`. -/
def writeFile {α : Type} (fs : List (String × α)) (p : String) (v : α) :
    List (String × α) :=
  (p, v) :: fs.filter (fun kv => kv.1 != p)

/-- Delete the file at path `p` (`Path.unlink`). -/
def removeFile {α : Type} (fs : List (String × α)) (p : String) :
    List (String × α) :=
  fs.filter (fun kv => kv.1 != p)

/-- The configuration keys of `DeviceManager.load_config` that the modelled
operations read. -/
structure Config where
  tftp_root : String
  http_root : String
  pxe_server_ip : String
deriving DecidableEq

/-- A row of the `devices` table (`init_database`). -/
structure DeviceRow where
  device_id : String
  mac_address : String
  ip_address : Option String
  hostname : Option String
  hardware_profile : String
  current_image : Option String
  target_image : Option String
  status : String
  location : Option String
  assigned_user : Option String
  last_seen : Option String
  created_at : String
  updated_at : String
deriving DecidableEq

/-- A row of the `images` table (`init_database`). -/
structure ImageRow where
  image_id : String
  name : String
  version : String
  description : String
  file_path : String
  file_size : Nat
  sha256_hash : String
  metadata : String
deriving DecidableEq

/-- A row of the `deployments` table (`init_database`). -/
structure DeploymentRow where
  deployment_id : String
  device_id : String
  image_id : String
  deployment_method : String
  status : String
  progress : Nat
  started_at : Option String
  completed_at : Option String
  error_message : Option String
deriving DecidableEq

/-- The mutable state touched by the manager: the three tables, the byte
files (source images, HTTP serving directory, USB image copies) and the
text files (PXE configuration, USB package scripts). -/
structure MState where
  devices : List DeviceRow
  images : List ImageRow
  deployments : List DeploymentRow
  files : List (String × Bytes)
  textFiles : List (String × String)
deriving DecidableEq

/-- The `device_info` dict accepted by `register_device`; a missing key is
`none`. -/
structure DeviceInfo where
  device_id : Option String := none
  mac_address : Option String := none
  ip_address : Option String := none
  hostname : Option String := none
  hardware_profile : Option String := none
  location : Option String := none
  assigned_user : Option String := none
deriving DecidableEq

/-- The `metadata` dict accepted by `register_image`. -/
structure ImageMeta where
  name : Option String := none
  version : Option String := none
  description : Option String := none
deriving DecidableEq

/-- A Python result dict `{success, ...}`; absent keys are `none`. -/
structure PyResult where
  success : Bool
  error : Option String := none
  device_id : Option String := none
  mac_address : Option String := none
  image_id : Option String := none
  file_path : Option String := none
  sha256_hash : Option String := none
  method : Option String := none
  pxe_config : Option String := none
  image_url : Option String := none
  image_hash : Option String := none
  package_directory : Option String := none
  instructions : Option String := none
  deployment_id : Option String := none
deriving DecidableEq

/-- `generate_device_id`: `mac_address.replace(':', '').lower()`.  Note that
only colons are removed; any other separator characters survive. -/
def generate_device_id (mac_address : String) : String :=
  lowerStr (stripChar mac_address ':')

/-- The MAC normalization on line 123: `mac_address.lower().replace('-', ':')`. -/
def canonicalMac (mac_address : String) : String :=
  replaceCharWith (lowerStr mac_address) '-' ':'

/-- `register_device`.  A missing `mac_address` key raises `KeyError`,
which the `except` clause turns into `{"success": False, "error": ...}`.
`device_info.get('device_id') or generate_device_id(...)` treats the empty
string like a missing key, and passes the raw (unnormalized) MAC to
`generate_device_id`.  The upsert is `INSERT OR REPLACE`, which deletes any
row conflicting on UNIQUE `device_id` or `mac_address` and appends a fresh
row; the columns not listed in the INSERT (`current_image`, `target_image`,
`status`, `created_at`) take their schema defaults. -/
def register_device (st : MState) (device_info : DeviceInfo) (now : String) :
    PyResult × MState :=
  match device_info.mac_address with
  | none => ({ success := false, error := some "'mac_address'" }, st)
  | some rawMac =>
    let device_id :=
      match device_info.device_id with
      | some d => if d = "" then generate_device_id rawMac else d
      | none => generate_device_id rawMac
    let mac_address := canonicalMac rawMac
    let row : DeviceRow :=
      { device_id := device_id
        mac_address := mac_address
        ip_address := device_info.ip_address
        hostname := device_info.hostname
        hardware_profile := device_info.hardware_profile.getD "{}"
        current_image := none
        target_image := none
        status := "registered"
        location := device_info.location
        assigned_user := device_info.assigned_user
        last_seen := some now
        created_at := now
        updated_at := now }
    let devices :=
      (st.devices.filter
        (fun r => r.device_id != device_id && r.mac_address != mac_address))
        ++ [row]
    ({ success := true, device_id := some device_id,
       mac_address := some mac_address },
     { st with devices := devices })

/-- `get_device`: `SELECT * FROM devices WHERE device_id = ?`, `fetchone`. -/
def get_device (st : MState) (device_id : String) : Option DeviceRow :=
  st.devices.find? (fun r => r.device_id == device_id)

/-- `get_image`: `SELECT * FROM images WHERE image_id = ?`, `fetchone`. -/
def get_image (st : MState) (image_id : String) : Option ImageRow :=
  st.images.find? (fun r => r.image_id == image_id)

/-- The image id computed in `register_image`:
`f"{metadata.get('name', 'unknown')}-{metadata.get('version', '1.0')}-{file_hash[:8]}"`. -/
def imageIdFor (hash : Bytes → String) (md : ImageMeta) (contents : Bytes) :
    String :=
  (md.name.getD "unknown") ++ "-" ++ (md.version.getD "1.0") ++ "-"
    ++ takeStr (hash contents) 8

/-- `register_image`.  Fails if the source path does not exist; hashes the
source bytes; copies the artifact to `http_root/<basename>` only when no
file with that destination name exists yet; upserts the `images` row
(UNIQUE `image_id`).  Note the row's `sha256_hash` is the digest of the
*source* bytes, whatever the destination held beforehand. -/
def register_image (hash : Bytes → String) (cfg : Config) (st : MState)
    (image_path : String) (metadata : ImageMeta) : PyResult × MState :=
  match lookupFile st.files image_path with
  | none => ({ success := false, error := some "Image file does not exist" }, st)
  | some contents =>
    let file_hash := hash contents
    let image_id := imageIdFor hash metadata contents
    let target_path := cfg.http_root ++ "/" ++ baseName image_path
    let files :=
      match lookupFile st.files target_path with
      | some _ => st.files
      | none => writeFile st.files target_path contents
    let row : ImageRow :=
      { image_id := image_id
        name := metadata.name.getD "Unknown"
        version := metadata.version.getD "1.0"
        description := metadata.description.getD ""
        file_path := target_path
        file_size := contents.length
        sha256_hash := file_hash
        metadata := "" }
    let images := (st.images.filter (fun r => r.image_id != image_id)) ++ [row]
    ({ success := true, image_id := some image_id,
       file_path := some target_path, sha256_hash := some file_hash },
     { st with files := files, images := images })

/-- The PXE configuration path of `deploy_via_pxe` and `cleanup_deployment`:
`tftp_root / "pxelinux.cfg" / f"01-{mac.replace(':', '-').lower()}"`. -/
def pxeConfigPath (cfg : Config) (mac_address : String) : String :=
  cfg.tftp_root ++ "/pxelinux.cfg/01-"
    ++ lowerStr (replaceCharWith mac_address ':' '-')

/-- The boot-menu text written by `deploy_via_pxe`. -/
def pxeConfigContent (cfg : Config) (image_name deployment_id : String) :
    String :=
  "DEFAULT vdi-deploy\nLABEL vdi-deploy\n    KERNEL images/deploy/vmlinuz\n"
    ++ "    APPEND initrd=images/deploy/initrd.img boot=live fetch=http://"
    ++ cfg.pxe_server_ip ++ "/images/" ++ image_name
    ++ " quiet splash deployment_id=" ++ deployment_id ++ "\n"

/-- `deploy_via_pxe`: copy the image into the HTTP root unless a file of
that name is already there, then (over)write the device's PXE
configuration file.  A failing copy (missing source) is caught by the
`except` clause and reported as `{"success": False, "error": ...}`. -/
def deploy_via_pxe (cfg : Config) (st : MState) (device : DeviceRow)
    (image : ImageRow) (deployment_id : String) : PyResult × MState :=
  let image_name := baseName image.file_path
  let http_image_path := cfg.http_root ++ "/" ++ image_name
  let copied : Option (List (String × Bytes)) :=
    match lookupFile st.files http_image_path with
    | some _ => some st.files
    | none =>
      match lookupFile st.files image.file_path with
      | some b => some (writeFile st.files http_image_path b)
      | none => none
  match copied with
  | none => ({ success := false, error := some "PXE deployment failed" }, st)
  | some files =>
    let pxe_config_file := pxeConfigPath cfg device.mac_address
    let pxe_config := pxeConfigContent cfg image_name deployment_id
    ({ success := true, method := some "pxe",
       pxe_config := some pxe_config_file,
       image_url :=
         some ("http://" ++ cfg.pxe_server_ip ++ "/images/" ++ image_name) },
     { st with files := files,
               textFiles := writeFile st.textFiles pxe_config_file pxe_config })

/-- The interactive installation script written by `deploy_via_usb`. -/
def usbDeployScript (device_id deployment_id now : String) : String :=
  "#!/bin/bash\n# USB Deployment Script for " ++ device_id
    ++ "\n# Generated: " ++ now
    ++ "\n\nDEVICE_ID=\"" ++ device_id ++ "\"\nDEPLOYMENT_ID=\""
    ++ deployment_id ++ "\"\nIMAGE_FILE=\"vdi-image.img\"\n\n"
    ++ "echo \"Starting USB deployment for device $DEVICE_ID\"\n"
    ++ "echo \"Deployment ID: $DEPLOYMENT_ID\"\n\n"
    ++ "# Mount target device (assuming /dev/sda)\nTARGET_DEVICE=\"/dev/sda\"\n\n"
    ++ "echo \"WARNING: This will erase all data on $TARGET_DEVICE\"\n"
    ++ "read -p \"Continue? (y/N): \" -n 1 -r\necho\n"
    ++ "if [[ ! $REPLY =~ ^[Yy]$ ]]; then\n    echo \"Deployment cancelled\"\n    exit 1\nfi\n\n"
    ++ "# Write image to device\necho \"Writing image to $TARGET_DEVICE...\"\n"
    ++ "dd if=\"$IMAGE_FILE\" of=\"$TARGET_DEVICE\" bs=4M status=progress\n\n"
    ++ "echo \"Deployment completed successfully\"\n"
    ++ "echo \"Remove USB device and reboot to boot from installed image\"\n"

/-- The JSON manifest written by `deploy_via_usb`. -/
def usbInfoJson (device_id deployment_id image_name image_version now : String) :
    String :=
  "\x7b\n  \"device_id\": \"" ++ device_id
    ++ "\",\n  \"deployment_id\": \"" ++ deployment_id
    ++ "\",\n  \"image_name\": \"" ++ image_name
    ++ "\",\n  \"image_version\": \"" ++ image_version
    ++ "\",\n  \"created_at\": \"" ++ now ++ "\"\n\x7d"

/-- `deploy_via_usb`: assemble an offline package under
`/tmp/usb-deploy-{deployment_id}`: a copy of the image, the installation
script, and the JSON manifest.  A failing copy is caught and reported. -/
def deploy_via_usb (st : MState) (device : DeviceRow) (image : ImageRow)
    (deployment_id now : String) : PyResult × MState :=
  let usb_package_dir := "/tmp/usb-deploy-" ++ deployment_id
  match lookupFile st.files image.file_path with
  | none => ({ success := false, error := some "USB deployment preparation failed" }, st)
  | some b =>
    let files := writeFile st.files (usb_package_dir ++ "/vdi-image.img") b
    let t1 := writeFile st.textFiles (usb_package_dir ++ "/deploy.sh")
      (usbDeployScript device.device_id deployment_id now)
    let t2 := writeFile t1 (usb_package_dir ++ "/deployment-info.json")
      (usbInfoJson device.device_id deployment_id image.name image.version now)
    ({ success := true, method := some "usb",
       package_directory := some usb_package_dir,
       instructions :=
         some "Copy package contents to USB drive and run deploy.sh on target device" },
     { st with files := files, textFiles := t2 })

/-- `deploy_via_network`: computes the download URL and expected hash for
the agent; contacts nothing and changes no state. -/
def deploy_via_network (cfg : Config) (st : MState) (device : DeviceRow)
    (image : ImageRow) (deployment_id : String) : PyResult × MState :=
  ({ success := true, method := some "network",
     image_url :=
       some ("http://" ++ cfg.pxe_server_ip ++ "/images/"
         ++ baseName image.file_path),
     image_hash := some image.sha256_hash,
     instructions :=
       some "Network deployment requires VDI agent on target device" }, st)

/-- The deployment id of `deploy_image_to_device`:
`f"deploy-{now:%Y%m%d-%H%M%S}-{device_id[:8]}"` (`ts` is the formatted
timestamp). -/
def deploymentIdFor (ts device_id : String) : String :=
  "deploy-" ++ ts ++ "-" ++ takeStr device_id 8

/-- `deploy_image_to_device`: load device and image (failing without any
write when either is missing), insert a `pending` deployment row, dispatch
on the method string, then set the row to `deploying` on strategy success
or to `failed` with the strategy's error message on failure, stamping
`started_at` in both cases. -/
def deploy_image_to_device (cfg : Config) (st : MState)
    (device_id image_id deployment_method : String) (ts now : String) :
    PyResult × MState :=
  match get_device st device_id with
  | none => ({ success := false, error := some "Device not found" }, st)
  | some device =>
    match get_image st image_id with
    | none => ({ success := false, error := some "Image not found" }, st)
    | some image =>
      let deployment_id := deploymentIdFor ts device_id
      let pendingRow : DeploymentRow :=
        { deployment_id := deployment_id
          device_id := device_id
          image_id := image_id
          deployment_method := deployment_method
          status := "pending"
          progress := 0
          started_at := some now
          completed_at := none
          error_message := none }
      let st1 := { st with deployments := st.deployments ++ [pendingRow] }
      let step : PyResult × MState :=
        if deployment_method = "pxe" then
          deploy_via_pxe cfg st1 device image deployment_id
        else if deployment_method = "usb" then
          deploy_via_usb st1 device image deployment_id now
        else if deployment_method = "network" then
          deploy_via_network cfg st1 device image deployment_id
        else
          ({ success := false,
             error :=
               some ("Unsupported deployment method: " ++ deployment_method) },
           st1)
      let result := step.1
      let st2 := step.2
      let status := if result.success then "deploying" else "failed"
      let error_message := if result.success then none else result.error
      let deployments := st2.deployments.map (fun r =>
        if r.deployment_id == deployment_id then
          { r with status := status, error_message := error_message,
                   started_at := some now }
        else r)
      ({ result with deployment_id := some deployment_id },
       { st2 with deployments := deployments })

/-- `cleanup_deployment`: returns `False` (leaving everything unchanged)
when the device does not exist; otherwise unlinks the device's PXE
configuration file if present and returns `True`. -/
def cleanup_deployment (cfg : Config) (st : MState) (device_id : String) :
    Bool × MState :=
  match get_device st device_id with
  | none => (false, st)
  | some device =>
    let pxe_config_file := pxeConfigPath cfg device.mac_address
    match lookupFile st.textFiles pxe_config_file with
    | some _ =>
      (true, { st with textFiles := removeFile st.textFiles pxe_config_file })
    | none => (true, st)

/-- The empty initial state right after `init_database` on a fresh path. -/
def emptyState : MState :=
  { devices := [], images := [], deployments := [], files := [],
    textFiles := [] }

/-- The default configuration values of `load_config`. -/
def cfg0 : Config :=
  { tftp_root := "/var/lib/tftpboot", http_root := "/var/www/html/images",
    pxe_server_ip := "192.168.100.1" }

/-! ### Helper lemmas about the file stores and row counts -/

theorem find?_filter_ne {α : Type} (fs : List (String × α)) (p q : String)
    (h : p ≠ q) :
    (fs.filter (fun kv => kv.1 != q)).find? (fun kv => kv.1 == p)
      = fs.find? (fun kv => kv.1 == p) := by
  induction fs with
  | nil => rfl
  | cons kv tl ih =>
    rw [List.filter_cons]
    by_cases hk : kv.1 = q
    · have h2 : (kv.1 == p) = false := by
        rw [hk]
        exact beq_eq_false_iff_ne.mpr (fun e => h e.symm)
      rw [if_neg (by simp [hk])]
      simp [List.find?_cons, h2, ih]
    · rw [if_pos (by simp [hk])]
      cases hb : (kv.1 == p) <;> simp [List.find?_cons, hb, ih]

theorem lookupFile_writeFile {α : Type} (fs : List (String × α))
    (p q : String) (v : α) :
    lookupFile (writeFile fs q v) p
      = if p = q then some v else lookupFile fs p := by
  by_cases h : p = q
  · subst h; simp [lookupFile, writeFile]
  · have h' : q ≠ p := fun e => h e.symm
    simp only [lookupFile, writeFile, List.find?_cons, if_neg h]
    have hb : ((q, v).1 == p) = false := by simp [h']
    rw [hb]
    rw [find?_filter_ne fs p q h]

theorem lookupFile_writeFile_self {α : Type} (fs : List (String × α))
    (p : String) (v : α) : lookupFile (writeFile fs p v) p = some v := by
  simp [lookupFile_writeFile]

theorem lookupFile_writeFile_ne {α : Type} (fs : List (String × α))
    (p q : String) (v : α) (h : p ≠ q) :
    lookupFile (writeFile fs q v) p = lookupFile fs p := by
  simp [lookupFile_writeFile, h]

theorem countP_filter_zero {α : Type} (l : List α) (f p : α → Bool)
    (h : ∀ a, f a = true → p a = false) : (l.filter f).countP p = 0 := by
  rw [List.countP_eq_zero]
  intro a ha
  rw [List.mem_filter] at ha
  simp [h a ha.2]

theorem countP_writeFile_self {α : Type} (fs : List (String × α))
    (p : String) (v : α) :
    (writeFile fs p v).countP (fun kv => kv.1 == p) = 1 := by
  have h0 : (fs.filter (fun kv => kv.1 != p)).countP (fun kv => kv.1 == p)
      = 0 := by
    apply countP_filter_zero
    intro a ha
    simpa using ha
  simp [writeFile, List.countP_cons, h0]

/-! ### Claim C1: the registry hash matches the stored artifact -/

/-- A concrete stand-in digest used to evaluate the model on explicit
inputs: it renders each byte in decimal followed by a dash, so distinct
byte strings receive distinct digests — the only property of SHA-256 the
registry logic relies on. -/
def digest0 (b : Bytes) : String :=
  String.join (b.map (fun n => toString n ++ "-"))

/-- The C1 invariant as stated, over `register_image`: whenever
registration succeeds, every registry row carrying the returned image id
stores the digest of the bytes actually present at its `file_path`, and
the returned digest agrees with that row. -/
def imageHashInvariant (hash : Bytes → String) (cfg : Config) (st : MState)
    (p : String) (md : ImageMeta) : Prop :=
  ((register_image hash cfg st p md).1).success = true →
    ∀ row ∈ ((register_image hash cfg st p md).2).images,
      some row.image_id = ((register_image hash cfg st p md).1).image_id →
        (lookupFile ((register_image hash cfg st p md).2).files
            row.file_path).map hash = some row.sha256_hash
          ∧ ((register_image hash cfg st p md).1).sha256_hash
              = some row.sha256_hash

/-- A serving directory that already holds a file named `base.img` whose
bytes differ from the source about to be registered. -/
def stC1 : MState :=
  { emptyState with
    files := [("/var/www/html/images/base.img", [2]), ("/root/base.img", [1])] }

/-- Claim C1 counterexample: registering `/root/base.img` (bytes `[1]`)
while the serving directory already holds a byte-different `base.img`
(bytes `[2]`) succeeds, skips the copy, and stores the digest of the
source bytes — so the stored row's hash does not match the bytes at its
`file_path`, refuting the claim for this input. -/
theorem register_image_stale_destination_breaks_hash :
    ¬ imageHashInvariant digest0 cfg0 stC1 "/root/base.img"
        { name := some "kiosk", version := some "2.0" } := by
  unfold imageHashInvariant
  decide

/-- Claim C1 (amended): if the destination name is not yet present in the
serving directory — or is present with exactly the source's bytes — then a
successful registration stores a row whose hash is the digest of the bytes
actually stored at its `file_path`, and the returned digest agrees.  (The
unamended claim fails only when a byte-different file already occupies the
destination name, because `register_image` skips the copy in that case
while still hashing the source.) -/
theorem register_image_hash_matches_fresh_destination
    (hash : Bytes → String) (cfg : Config) (st : MState) (p : String)
    (md : ImageMeta) (b : Bytes)
    (hsrc : lookupFile st.files p = some b)
    (hdst : lookupFile st.files (cfg.http_root ++ "/" ++ baseName p) = none
        ∨ lookupFile st.files (cfg.http_root ++ "/" ++ baseName p) = some b) :
    imageHashInvariant hash cfg st p md := by
  simp only [imageHashInvariant, register_image, hsrc]
  intro _ row hrow hid
  rw [List.mem_append] at hrow
  rcases hrow with hrow | hrow
  · rw [List.mem_filter] at hrow
    exfalso
    have hne : row.image_id ≠ imageIdFor hash md b := by simpa using hrow.2
    exact hne (by simpa using hid)
  · have hrow' : row =
        { image_id := imageIdFor hash md b,
          name := md.name.getD "Unknown",
          version := md.version.getD "1.0",
          description := md.description.getD "",
          file_path := cfg.http_root ++ "/" ++ baseName p,
          file_size := b.length,
          sha256_hash := hash b,
          metadata := "" } := by simpa using hrow
    subst hrow'
    rcases hdst with hdst | hdst
    · rw [hdst]
      simp [lookupFile_writeFile_self]
    · rw [hdst]
      simp [hdst]

/-- Witness for the amended C1 theorem at a concrete fresh-destination
input. -/
theorem register_image_hash_matches_fresh_destination_witness :
    imageHashInvariant digest0 cfg0
      { emptyState with files := [("/root/base.img", [1])] } "/root/base.img"
      { name := some "kiosk", version := some "2.0" } :=
  register_image_hash_matches_fresh_destination digest0 cfg0
    { emptyState with files := [("/root/base.img", [1])] } "/root/base.img"
    { name := some "kiosk", version := some "2.0" } [1]
    (by decide) (Or.inl (by decide))

/-! ### Claim C2: cleanup behaviour on absent device or artifact -/

/-- Claim C2 counterexample: for a `device_id` absent from the device
table, `cleanup_deployment` does not succeed — it returns `False` — so the
claim that cleanup succeeds for every device id, in particular when the
device is absent, fails at this input (the no-op part does hold). -/
theorem cleanup_missing_device_not_success :
    ¬ ((cleanup_deployment cfg0 emptyState "aabbccddeeff").1 = true ∧
       (cleanup_deployment cfg0 emptyState "aabbccddeeff").2 = emptyState) := by
  decide

/-- Claim C2 (amended): `cleanup_deployment` returns failure (`False`) and
changes nothing when the device is absent; returns success and changes
nothing when the device exists but its boot-configuration artifact is
absent; and removes exactly that artifact, returning success, when it
exists. -/
theorem cleanup_deployment_cases (cfg : Config) (st : MState) (d : String) :
    (get_device st d = none → cleanup_deployment cfg st d = (false, st)) ∧
    (∀ dev, get_device st d = some dev →
      lookupFile st.textFiles (pxeConfigPath cfg dev.mac_address) = none →
      cleanup_deployment cfg st d = (true, st)) ∧
    (∀ dev, get_device st d = some dev →
      (lookupFile st.textFiles (pxeConfigPath cfg dev.mac_address)).isSome →
      cleanup_deployment cfg st d
        = (true, { st with textFiles := removeFile st.textFiles (pxeConfigPath cfg dev.mac_address) })) := by
  refine ⟨?_, ?_, ?_⟩
  · intro h
    unfold cleanup_deployment
    rw [h]
  · intro dev h1 h2
    unfold cleanup_deployment
    rw [h1]
    dsimp only
    rw [h2]
  · intro dev h1 h2
    obtain ⟨c, hc⟩ := Option.isSome_iff_exists.mp h2
    unfold cleanup_deployment
    rw [h1]
    dsimp only
    rw [hc]

/-- A registered device with no boot-configuration artifact present. -/
def devC2 : DeviceRow :=
  { device_id := "aabbccddeeff", mac_address := "aa:bb:cc:dd:ee:ff",
    ip_address := none, hostname := none, hardware_profile := "{}",
    current_image := none, target_image := none, status := "registered",
    location := none, assigned_user := none, last_seen := some "t0",
    created_at := "t0", updated_at := "t0" }

/-- Witness for the amended C2 theorem: cleanup on a device with no
artifact returns success and leaves the state unchanged. -/
theorem cleanup_deployment_cases_witness :
    cleanup_deployment cfg0 { emptyState with devices := [devC2] }
      "aabbccddeeff" = (true, { emptyState with devices := [devC2] }) :=
  (cleanup_deployment_cases cfg0 { emptyState with devices := [devC2] }
    "aabbccddeeff").2.1 devC2 (by decide) (by decide)

/-! ### Claim C3: idempotent image registration -/

theorem countP_filter_append_singleton {α : Type} (l : List α)
    (f p : α → Bool) (row : α)
    (hf : ∀ a, f a = true → p a = false) (hrow : p row = true) :
    ((l.filter f) ++ [row]).countP p = 1 := by
  rw [List.countP_append, countP_filter_zero l f p hf]
  simp [List.countP_cons, hrow]

/-- Claim C3: registering the same file bytes twice under the same
name/version is idempotent — both calls return the same `image_id` (the
content-addressed one), the second call copies nothing (the byte store is
unchanged), exactly one registry row with that id remains, and at most one
stored copy with the destination name exists (exactly one when the
destination started out free). -/
theorem register_image_idempotent
    (hash : Bytes → String) (cfg : Config) (st : MState) (p : String)
    (md : ImageMeta) (b : Bytes) (r1 r2 : PyResult) (st1 st2 : MState)
    (hsrc : lookupFile st.files p = some b)
    (h1 : register_image hash cfg st p md = (r1, st1))
    (h2 : register_image hash cfg st1 p md = (r2, st2)) :
    r1.image_id = some (imageIdFor hash md b) ∧
    r2.image_id = some (imageIdFor hash md b) ∧
    st2.files = st1.files ∧
    st2.images.countP (fun row => row.image_id == imageIdFor hash md b) = 1 ∧
    (lookupFile st.files (cfg.http_root ++ "/" ++ baseName p) = none →
      st1.files.countP
        (fun kv => kv.1 == cfg.http_root ++ "/" ++ baseName p) = 1) := by
  have himg : ∀ l : List ImageRow,
      ((l.filter (fun r => r.image_id != imageIdFor hash md b)) ++
        [({ image_id := imageIdFor hash md b, name := md.name.getD "Unknown",
            version := md.version.getD "1.0",
            description := md.description.getD "",
            file_path := cfg.http_root ++ "/" ++ baseName p,
            file_size := b.length, sha256_hash := hash b,
            metadata := "" } : ImageRow)]).countP
        (fun row => row.image_id == imageIdFor hash md b) = 1 := by
    intro l
    exact countP_filter_append_singleton l _ _ _
      (fun a ha => by simpa using ha) (by simp)
  rcases hdst : lookupFile st.files (cfg.http_root ++ "/" ++ baseName p)
      with _ | c
  · have hpt : p ≠ cfg.http_root ++ "/" ++ baseName p := by
      intro e
      rw [e, hdst] at hsrc
      cases hsrc
    simp only [register_image, hsrc, hdst] at h1
    injection h1 with ha hb
    subst ha
    subst hb
    have hsrc1 : lookupFile
        (writeFile st.files (cfg.http_root ++ "/" ++ baseName p) b) p
        = some b := by
      rw [lookupFile_writeFile_ne _ _ _ _ hpt]
      exact hsrc
    have hdst1 : lookupFile
        (writeFile st.files (cfg.http_root ++ "/" ++ baseName p) b)
        (cfg.http_root ++ "/" ++ baseName p) = some b :=
      lookupFile_writeFile_self _ _ _
    simp only [register_image, hsrc1, hdst1] at h2
    injection h2 with hc hd
    subst hc
    subst hd
    refine ⟨rfl, rfl, rfl, himg _, fun _ => ?_⟩
    exact countP_writeFile_self _ _ _
  · simp only [register_image, hsrc, hdst] at h1
    injection h1 with ha hb
    subst ha
    subst hb
    simp only [register_image, hsrc, hdst] at h2
    injection h2 with hc hd
    subst hc
    subst hd
    refine ⟨rfl, rfl, rfl, himg _, fun h' => ?_⟩
    simp [hdst] at h'

/-- Witness for the C3 theorem: registering the one-byte file
`/root/base.img` twice from the empty state. -/
theorem register_image_idempotent_witness :
    ((register_image digest0 cfg0
        { emptyState with files := [("/root/base.img", [1])] }
        "/root/base.img" { name := some "kiosk", version := some "2.0" }).1).image_id
      = some (imageIdFor digest0
          { name := some "kiosk", version := some "2.0" } [1]) ∧
    ((register_image digest0 cfg0
        ((register_image digest0 cfg0
          { emptyState with files := [("/root/base.img", [1])] }
          "/root/base.img" { name := some "kiosk", version := some "2.0" }).2)
        "/root/base.img" { name := some "kiosk", version := some "2.0" }).1).image_id
      = some (imageIdFor digest0
          { name := some "kiosk", version := some "2.0" } [1]) ∧
    ((register_image digest0 cfg0
        ((register_image digest0 cfg0
          { emptyState with files := [("/root/base.img", [1])] }
          "/root/base.img" { name := some "kiosk", version := some "2.0" }).2)
        "/root/base.img" { name := some "kiosk", version := some "2.0" }).2).files
      = ((register_image digest0 cfg0
          { emptyState with files := [("/root/base.img", [1])] }
          "/root/base.img" { name := some "kiosk", version := some "2.0" }).2).files ∧
    (((register_image digest0 cfg0
        ((register_image digest0 cfg0
          { emptyState with files := [("/root/base.img", [1])] }
          "/root/base.img" { name := some "kiosk", version := some "2.0" }).2)
        "/root/base.img" { name := some "kiosk", version := some "2.0" }).2).images.countP
      (fun row => row.image_id == imageIdFor digest0
          { name := some "kiosk", version := some "2.0" } [1]) = 1) ∧
    (lookupFile ([("/root/base.img", ([1] : Bytes))])
        (cfg0.http_root ++ "/" ++ baseName "/root/base.img") = none →
      (((register_image digest0 cfg0
          { emptyState with files := [("/root/base.img", [1])] }
          "/root/base.img" { name := some "kiosk", version := some "2.0" }).2).files.countP
        (fun kv => kv.1 == cfg0.http_root ++ "/" ++ baseName "/root/base.img") = 1)) :=
  register_image_idempotent digest0 cfg0
    { emptyState with files := [("/root/base.img", [1])] } "/root/base.img"
    { name := some "kiosk", version := some "2.0" } [1] _ _ _ _
    (by decide) rfl rfl

/-! ### Claims about `register_device`: C4, C6, C7, C10 -/

/-- After any registration with MAC `m`, exactly one device row carries the
canonical MAC, and that row has the registration's IP, the default status,
cleared image columns, and timestamps of this registration. -/
theorem register_device_row_after (st : MState) (di : DeviceInfo)
    (now m : String) (hm : di.mac_address = some m) :
    (((register_device st di now).2).devices.countP
        (fun r => r.mac_address == canonicalMac m) = 1) ∧
    ∀ r ∈ ((register_device st di now).2).devices,
      r.mac_address = canonicalMac m →
        r.ip_address = di.ip_address ∧ r.status = "registered" ∧
        r.current_image = none ∧ r.target_image = none ∧
        r.created_at = now ∧ r.last_seen = some now := by
  simp only [register_device, hm]
  constructor
  · refine countP_filter_append_singleton _ _ _ _ (fun a ha => ?_) (by simp)
    simp only [Bool.and_eq_true, bne_iff_ne] at ha
    simpa using ha.2
  · intro r hr hmac
    rw [List.mem_append] at hr
    rcases hr with hr | hr
    · rw [List.mem_filter] at hr
      exfalso
      have h2 := hr.2
      simp only [Bool.and_eq_true, bne_iff_ne] at h2
      exact h2.2 hmac
    · have hr' : r =
          { device_id :=
              match di.device_id with
              | some d => if d = "" then generate_device_id m else d
              | none => generate_device_id m,
            mac_address := canonicalMac m,
            ip_address := di.ip_address, hostname := di.hostname,
            hardware_profile := di.hardware_profile.getD "{}",
            current_image := none, target_image := none,
            status := "registered", location := di.location,
            assigned_user := di.assigned_user, last_seen := some now,
            created_at := now, updated_at := now } := by simpa using hr
      subst hr'
      exact ⟨rfl, rfl, rfl, rfl, rfl, rfl⟩

/-- Claim C4: registering the same MAC twice (the IPs may differ) leaves
exactly one device row for that MAC, and that row carries the IP of the
most recent registration. -/
theorem register_device_upsert_latest_ip (st : MState)
    (di1 di2 : DeviceInfo) (now1 now2 m : String)
    (h1 : di1.mac_address = some m) (h2 : di2.mac_address = some m) :
    (((register_device (register_device st di1 now1).2 di2 now2).2).devices.countP
        (fun r => r.mac_address == canonicalMac m) = 1) ∧
    ∀ r ∈ ((register_device (register_device st di1 now1).2 di2 now2).2).devices,
      r.mac_address = canonicalMac m → r.ip_address = di2.ip_address := by
  obtain ⟨hc, hall⟩ :=
    register_device_row_after (register_device st di1 now1).2 di2 now2 m h2
  exact ⟨hc, fun r hr hmac => (hall r hr hmac).1⟩

/-- Witness for the C4 theorem: the same MAC registered with IP `.10`,
then IP `.20`. -/
theorem register_device_upsert_latest_ip_witness :
    (((register_device
        (register_device emptyState
          { mac_address := some "AA:BB:CC:DD:EE:FF",
            ip_address := some "192.168.100.10" } "t1").2
        { mac_address := some "AA:BB:CC:DD:EE:FF",
          ip_address := some "192.168.100.20" } "t2").2).devices.countP
      (fun r => r.mac_address == canonicalMac "AA:BB:CC:DD:EE:FF") = 1) ∧
    ∀ r ∈ (((register_device
        (register_device emptyState
          { mac_address := some "AA:BB:CC:DD:EE:FF",
            ip_address := some "192.168.100.10" } "t1").2
        { mac_address := some "AA:BB:CC:DD:EE:FF",
          ip_address := some "192.168.100.20" } "t2").2)).devices,
      r.mac_address = canonicalMac "AA:BB:CC:DD:EE:FF" →
        r.ip_address = some "192.168.100.20" :=
  register_device_upsert_latest_ip emptyState
    { mac_address := some "AA:BB:CC:DD:EE:FF",
      ip_address := some "192.168.100.10" }
    { mac_address := some "AA:BB:CC:DD:EE:FF",
      ip_address := some "192.168.100.20" } "t1" "t2" "AA:BB:CC:DD:EE:FF"
    rfl rfl

/-- Claim C6 counterexample: a present but malformed MAC (here the string
`not-a-mac`, which is no hardware address) is accepted — registration
succeeds, refuting the claim that malformed MACs fail validation. -/
theorem register_device_accepts_malformed_mac :
    ((register_device emptyState { mac_address := some "not-a-mac" }
        "t0").1).success = true := by
  decide

/-- Claim C6 (amended): `register_device` fails with a structured failure
result exactly when the MAC key is absent (the `KeyError` is caught and
reported); any present MAC string — well-formed or not — is accepted
without format validation and the registration succeeds. -/
theorem register_device_mac_validation (st : MState) (di : DeviceInfo)
    (now : String) :
    (di.mac_address = none →
      register_device st di now
        = ({ success := false, error := some "'mac_address'" }, st)) ∧
    (∀ m, di.mac_address = some m →
      ((register_device st di now).1).success = true) := by
  constructor
  · intro h
    simp only [register_device, h]
  · intro m h
    simp only [register_device, h]

/-- Witness for the amended C6 theorem: registering with no MAC fails and
changes nothing, while the malformed-MAC registration of the
counterexample state succeeds. -/
theorem register_device_mac_validation_witness :
    register_device emptyState { device_id := some "dev1" } "t0"
      = ({ success := false, error := some "'mac_address'" }, emptyState) :=
  (register_device_mac_validation emptyState { device_id := some "dev1" }
    "t0").1 rfl

/-- Claim C7 counterexample: registering MAC `AA-BB-CC-DD-EE-FF` (hyphen
separators) derives device id `aa-bb-cc-dd-ee-ff`, not the 12 hex
characters `aabbccddeeff` the claim requires: `generate_device_id` strips
only colons and is applied to the raw MAC before normalization. -/
theorem register_device_hyphen_mac_keeps_hyphens :
    ((register_device emptyState
        { mac_address := some "AA-BB-CC-DD-EE-FF" } "t0").1).device_id
      = some "aa-bb-cc-dd-ee-ff"
    ∧ ("aa-bb-cc-dd-ee-ff" : String) ≠ "aabbccddeeff" := by
  decide

/-- Claim C7 (amended): when no explicit device id is supplied, the derived
device id is the raw MAC with colons removed, lower-cased
(`generate_device_id`).  For colon-separated MACs this is the 12 hex
characters in lower case (e.g. `AA:BB:CC:DD:EE:FF` → `aabbccddeeff`), but
hyphen separators are not stripped. -/
theorem register_device_derived_id (st : MState) (di : DeviceInfo)
    (now m : String) (hm : di.mac_address = some m)
    (hid : di.device_id = none) :
    ((register_device st di now).1).device_id
      = some (generate_device_id m) := by
  simp only [register_device, hm, hid]

/-- Witness for the amended C7 theorem: the colon-separated example from
the spec scenario. -/
theorem register_device_derived_id_witness :
    ((register_device emptyState
        { mac_address := some "AA:BB:CC:DD:EE:FF" } "t0").1).device_id
      = some "aabbccddeeff" :=
  (register_device_derived_id emptyState
    { mac_address := some "AA:BB:CC:DD:EE:FF" } "t0" "AA:BB:CC:DD:EE:FF"
    rfl rfl).trans (by decide)

/-- Claim C10: re-registration does not preserve the columns omitted from
the registration INSERT — after any registration of MAC `m`, whatever the
table held before, the row for that MAC has the default status
`registered`, cleared `current_image` and `target_image`, and a
`created_at` equal to this registration's time. -/
theorem register_device_resets_unlisted_columns (st : MState)
    (di : DeviceInfo) (now m : String) (hm : di.mac_address = some m) :
    ∀ r ∈ ((register_device st di now).2).devices,
      r.mac_address = canonicalMac m →
        r.status = "registered" ∧ r.current_image = none ∧
        r.target_image = none ∧ r.created_at = now := by
  intro r hr hmac
  obtain ⟨-, hall⟩ := register_device_row_after st di now m hm
  obtain ⟨-, h2, h3, h4, h5, -⟩ := hall r hr hmac
  exact ⟨h2, h3, h4, h5⟩

/-- A device row as it might look after deployment activity: status
advanced, images set, old timestamps. -/
def devC10 : DeviceRow :=
  { device_id := "aabbccddeeff", mac_address := "aa:bb:cc:dd:ee:ff",
    ip_address := some "192.168.100.10", hostname := some "kiosk-1",
    hardware_profile := "{}", current_image := some "kiosk-1.0-00000000",
    target_image := some "kiosk-2.0-11111111", status := "active",
    location := some "lobby", assigned_user := some "alice",
    last_seen := some "t0", created_at := "t0", updated_at := "t0" }

/-- The row produced by re-registering the C10 device at time `t1`. -/
def devC10new : DeviceRow :=
  { device_id := "aabbccddeeff", mac_address := "aa:bb:cc:dd:ee:ff",
    ip_address := none, hostname := none, hardware_profile := "{}",
    current_image := none, target_image := none, status := "registered",
    location := none, assigned_user := none, last_seen := some "t1",
    created_at := "t1", updated_at := "t1" }

/-- Witness for the C10 theorem: re-registering over a row whose status,
images and timestamps had all been changed (`devC10`) leaves the row
`devC10new` whose unlisted columns are back at their defaults. -/
theorem register_device_resets_unlisted_columns_witness :
    devC10new.status = "registered" ∧ devC10new.current_image = none ∧
    devC10new.target_image = none ∧ devC10new.created_at = "t1" :=
  register_device_resets_unlisted_columns
    { emptyState with devices := [devC10] }
    { mac_address := some "AA:BB:CC:DD:EE:FF" } "t1" "AA:BB:CC:DD:EE:FF" rfl
    devC10new (by decide) (by decide)

/-! ### Claim C5: deploying to an unknown device -/

/-- Claim C5: when no device row carries the requested `device_id`,
`deploy_image_to_device` returns the `Device not found` failure and leaves
the whole state — in particular the deployments table — unchanged: the
lookup failure happens before the `pending` row would be inserted. -/
theorem deploy_unknown_device (cfg : Config) (st : MState)
    (device_id image_id method ts now : String)
    (h : ∀ r ∈ st.devices, r.device_id ≠ device_id) :
    deploy_image_to_device cfg st device_id image_id method ts now
      = ({ success := false, error := some "Device not found" }, st) := by
  have hget : get_device st device_id = none := by
    unfold get_device
    rw [List.find?_eq_none]
    intro r hr
    simpa using h r hr
  unfold deploy_image_to_device
  rw [hget]

/-- Witness for the C5 theorem on the empty device table. -/
theorem deploy_unknown_device_witness :
    deploy_image_to_device cfg0 emptyState "aabbccddeeff"
        "kiosk-2.0-1-" "pxe" "20260101-000000" "t0"
      = ({ success := false, error := some "Device not found" }, emptyState) :=
  deploy_unknown_device cfg0 emptyState "aabbccddeeff" "kiosk-2.0-1-"
    "pxe" "20260101-000000" "t0" (by decide)

/-! ### Claim C8: PXE deploys write a MAC-keyed configuration file -/

/-- Claim C8: a successful `pxe` deploy writes the boot-configuration
artifact at `pxeConfigPath cfg mac` — a pure function of the device's
canonical MAC (`01-` followed by the MAC with colons replaced by hyphens,
lower-cased) — touches no other text file, and leaves exactly one entry
under that path however many deploys preceded, so repeated deploys to the
same device overwrite the same file rather than accumulating new ones.
The copy hypothesis says the image bytes are available (already served or
present at the registered path), which is what strategy success
requires. -/
theorem deploy_pxe_writes_mac_keyed_config (cfg : Config) (st : MState)
    (device_id image_id ts now : String) (dev : DeviceRow) (img : ImageRow)
    (hdev : get_device st device_id = some dev)
    (himg : get_image st image_id = some img)
    (hcopy : (lookupFile st.files
          (cfg.http_root ++ "/" ++ baseName img.file_path)).isSome = true
        ∨ (lookupFile st.files img.file_path).isSome = true) :
    ((deploy_image_to_device cfg st device_id image_id "pxe" ts now).1).success
        = true ∧
    ((deploy_image_to_device cfg st device_id image_id "pxe" ts now).1).pxe_config
        = some (pxeConfigPath cfg dev.mac_address) ∧
    (((deploy_image_to_device cfg st device_id image_id "pxe" ts now).2).textFiles.countP
        (fun kv => kv.1 == pxeConfigPath cfg dev.mac_address) = 1) ∧
    (∀ pth, pth ≠ pxeConfigPath cfg dev.mac_address →
      lookupFile
          (((deploy_image_to_device cfg st device_id image_id "pxe" ts now).2).textFiles)
          pth
        = lookupFile st.textFiles pth) := by
  rcases hc : lookupFile st.files
      (cfg.http_root ++ "/" ++ baseName img.file_path) with _ | cbytes
  · have hsrc : (lookupFile st.files img.file_path).isSome = true := by
      rcases hcopy with h | h
      · rw [hc] at h
        cases h
      · exact h
    obtain ⟨bb, hbb⟩ := Option.isSome_iff_exists.mp hsrc
    simp only [deploy_image_to_device, hdev, himg, deploy_via_pxe, hc, hbb,
      if_pos, String.reduceEq, reduceIte]
    refine ⟨trivial, trivial, countP_writeFile_self _ _ _, fun pth hpth => ?_⟩
    exact lookupFile_writeFile_ne _ _ _ _ hpth
  · simp only [deploy_image_to_device, hdev, himg, deploy_via_pxe, hc,
      if_pos, String.reduceEq, reduceIte]
    refine ⟨trivial, trivial, countP_writeFile_self _ _ _, fun pth hpth => ?_⟩
    exact lookupFile_writeFile_ne _ _ _ _ hpth

/-- The registered device of the spec scenario. -/
def devC8 : DeviceRow :=
  { device_id := "aabbccddeeff", mac_address := "aa:bb:cc:dd:ee:ff",
    ip_address := some "192.168.100.10", hostname := none,
    hardware_profile := "{}", current_image := none, target_image := none,
    status := "registered", location := none, assigned_user := none,
    last_seen := some "t0", created_at := "t0", updated_at := "t0" }

/-- The registered image of the spec scenario, already served. -/
def imgC8 : ImageRow :=
  { image_id := "kiosk-2.0-1-", name := "kiosk", version := "2.0",
    description := "", file_path := "/var/www/html/images/base.img",
    file_size := 1, sha256_hash := "1-", metadata := "" }

/-- State holding the C8 device, image, and served image bytes. -/
def stC8 : MState :=
  { emptyState with
      devices := [devC8], images := [imgC8],
      files := [("/var/www/html/images/base.img", [1])] }

/-- Witness for the C8 theorem: the spec scenario's device and image,
deployed via `pxe`. -/
theorem deploy_pxe_writes_mac_keyed_config_witness :
    ((deploy_image_to_device cfg0 stC8 "aabbccddeeff" "kiosk-2.0-1-" "pxe"
        "20260101-000000" "t1").1).success = true ∧
    ((deploy_image_to_device cfg0 stC8 "aabbccddeeff" "kiosk-2.0-1-" "pxe"
        "20260101-000000" "t1").1).pxe_config
      = some (pxeConfigPath cfg0 devC8.mac_address) ∧
    (((deploy_image_to_device cfg0 stC8 "aabbccddeeff" "kiosk-2.0-1-" "pxe"
        "20260101-000000" "t1").2).textFiles.countP
      (fun kv => kv.1 == pxeConfigPath cfg0 devC8.mac_address) = 1) ∧
    (∀ pth, pth ≠ pxeConfigPath cfg0 devC8.mac_address →
      lookupFile
          (((deploy_image_to_device cfg0 stC8 "aabbccddeeff" "kiosk-2.0-1-"
            "pxe" "20260101-000000" "t1").2).textFiles) pth
        = lookupFile stC8.textFiles pth) :=
  deploy_pxe_writes_mac_keyed_config cfg0 stC8 "aabbccddeeff" "kiosk-2.0-1-"
    "20260101-000000" "t1" devC8 imgC8 (by decide) (by decide)
    (Or.inl (by decide))

/-! ### Claim C9: deployment status transitions, and `completed` is never written -/

/-- The row-update step of `deploy_image_to_device`, characterized over the
table as it stands after the `pending` insert: the updated row is
`deploying`/`failed` according to the strategy result, `started_at` is
stamped, failures carry an error message, and any `completed` row must
already have been in the table before the call. -/
theorem updated_rows_spec (l0 : List DeploymentRow)
    (pending : DeploymentRow) (did now : String) (res : PyResult)
    (hpid : pending.deployment_id = did)
    (herr : res.success = false → res.error.isSome = true) :
    (∀ row ∈ (l0 ++ [pending]).map (fun r =>
        if r.deployment_id == did then
          { r with
            status := if res.success then "deploying" else "failed",
            error_message := if res.success then none else res.error,
            started_at := some now }
        else r),
      row.deployment_id = did →
        row.status = (if res.success then "deploying" else "failed") ∧
        row.started_at = some now ∧
        (res.success = false → row.error_message.isSome = true)) ∧
    (∀ row ∈ (l0 ++ [pending]).map (fun r =>
        if r.deployment_id == did then
          { r with
            status := if res.success then "deploying" else "failed",
            error_message := if res.success then none else res.error,
            started_at := some now }
        else r),
      row.status = "completed" → row ∈ l0) := by
  constructor
  · intro row hrow hid
    rw [List.mem_map] at hrow
    obtain ⟨r0, hr0, hmap⟩ := hrow
    by_cases h : r0.deployment_id = did
    · rw [if_pos (by simpa using h)] at hmap
      subst hmap
      refine ⟨rfl, rfl, fun hf => ?_⟩
      simp [hf, herr hf]
    · rw [if_neg (by simpa using h)] at hmap
      subst hmap
      exact absurd hid h
  · intro row hrow hcomp
    rw [List.mem_map] at hrow
    obtain ⟨r0, hr0, hmap⟩ := hrow
    by_cases h : r0.deployment_id = did
    · rw [if_pos (by simpa using h)] at hmap
      subst hmap
      rcases Bool.eq_false_or_eq_true res.success with hs | hs <;>
        simp [hs] at hcomp
    · rw [if_neg (by simpa using h)] at hmap
      subst hmap
      rw [List.mem_append] at hr0
      rcases hr0 with h0 | h0
      · exact h0
      · have he : r0 = pending := by simpa using h0
        subst he
        exact absurd hpid h

/-- The finalize step of `deploy_image_to_device` phrased over an
arbitrary strategy step: when the strategy leaves the deployments table at
`l0 ++ [pending]`, mapping the status update over it yields the C9 row
facts. -/
theorem deploy_finalize_spec (l0 : List DeploymentRow)
    (pending : DeploymentRow) (did now : String) (step : PyResult × MState)
    (hframe : step.2.deployments = l0 ++ [pending])
    (hpid : pending.deployment_id = did)
    (herr : step.1.success = false → step.1.error.isSome = true) :
    (∀ row ∈ step.2.deployments.map (fun r =>
        if r.deployment_id == did then
          { r with
            status := if step.1.success then "deploying" else "failed",
            error_message := if step.1.success then none else step.1.error,
            started_at := some now }
        else r),
      row.deployment_id = did →
        row.status = (if step.1.success then "deploying" else "failed") ∧
        row.started_at = some now ∧
        (step.1.success = false → row.error_message.isSome = true)) ∧
    (∀ row ∈ step.2.deployments.map (fun r =>
        if r.deployment_id == did then
          { r with
            status := if step.1.success then "deploying" else "failed",
            error_message := if step.1.success then none else step.1.error,
            started_at := some now }
        else r),
      row.status = "completed" → row ∈ l0) := by
  rw [hframe]
  exact updated_rows_spec l0 pending did now step.1 hpid herr

/-- `deploy_via_pxe` never touches the deployments table, and its failure
results always carry an error message. -/
theorem deploy_via_pxe_frame (cfg : Config) (st : MState) (dev : DeviceRow)
    (img : ImageRow) (did : String) :
    ((deploy_via_pxe cfg st dev img did).2).deployments = st.deployments ∧
    (((deploy_via_pxe cfg st dev img did).1).success = false →
      ((deploy_via_pxe cfg st dev img did).1).error.isSome = true) := by
  rcases h1 : lookupFile st.files
      (cfg.http_root ++ "/" ++ baseName img.file_path) with _ | c
  · rcases h2 : lookupFile st.files img.file_path with _ | b
    · simp [deploy_via_pxe, h1, h2]
    · simp [deploy_via_pxe, h1, h2]
  · simp [deploy_via_pxe, h1]

/-- `deploy_via_usb` never touches the deployments table, and its failure
results always carry an error message. -/
theorem deploy_via_usb_frame (st : MState) (dev : DeviceRow)
    (img : ImageRow) (did now : String) :
    ((deploy_via_usb st dev img did now).2).deployments = st.deployments ∧
    (((deploy_via_usb st dev img did now).1).success = false →
      ((deploy_via_usb st dev img did now).1).error.isSome = true) := by
  rcases h1 : lookupFile st.files img.file_path with _ | b <;>
    simp [deploy_via_usb, h1]

/-- `deploy_via_network` changes no state and always succeeds. -/
theorem deploy_via_network_frame (cfg : Config) (st : MState)
    (dev : DeviceRow) (img : ImageRow) (did : String) :
    ((deploy_via_network cfg st dev img did).2).deployments = st.deployments ∧
    (((deploy_via_network cfg st dev img did).1).success = false →
      ((deploy_via_network cfg st dev img did).1).error.isSome = true) := by
  simp [deploy_via_network]

/-- `register_device` never changes the deployments table. -/
theorem register_device_preserves_deployments (st : MState)
    (di : DeviceInfo) (now : String) :
    ((register_device st di now).2).deployments = st.deployments := by
  rcases hm : di.mac_address with _ | m <;> simp [register_device, hm]

/-- `register_image` never changes the deployments table. -/
theorem register_image_preserves_deployments (hash : Bytes → String)
    (cfg : Config) (st : MState) (p : String) (md : ImageMeta) :
    ((register_image hash cfg st p md).2).deployments = st.deployments := by
  rcases hp : lookupFile st.files p with _ | b <;> simp [register_image, hp]

/-- `cleanup_deployment` never changes the deployments table. -/
theorem cleanup_preserves_deployments (cfg : Config) (st : MState)
    (d : String) :
    ((cleanup_deployment cfg st d).2).deployments = st.deployments := by
  rcases hd : get_device st d with _ | dv
  · simp [cleanup_deployment, hd]
  · rcases hl : lookupFile st.textFiles (pxeConfigPath cfg dv.mac_address)
        with _ | c <;>
      simp [cleanup_deployment, hd, hl]

/-- Claim C9: once `deploy_image_to_device` reaches the dispatch step
(device and image both found), the deployment row carrying the allocated
deployment id ends `deploying` with `started_at` stamped when the strategy
succeeded, and `failed` with a present `error_message` when it failed
(including the unsupported-method branch); and no operation of this core
ever writes the status `completed`: any `completed` row after a deploy was
already present before, and the other operations never change the
deployments table at all. -/
theorem deploy_status_transition (cfg : Config) (st : MState)
    (device_id image_id method ts now : String) (dev : DeviceRow)
    (img : ImageRow)
    (hdev : get_device st device_id = some dev)
    (himg : get_image st image_id = some img) :
    (∀ row ∈ ((deploy_image_to_device cfg st device_id image_id method ts now).2).deployments,
      row.deployment_id = deploymentIdFor ts device_id →
        row.status = (if ((deploy_image_to_device cfg st device_id image_id method ts now).1).success
            then "deploying" else "failed") ∧
        row.started_at = some now ∧
        (((deploy_image_to_device cfg st device_id image_id method ts now).1).success = false →
          row.error_message.isSome = true)) ∧
    (∀ row ∈ ((deploy_image_to_device cfg st device_id image_id method ts now).2).deployments,
      row.status = "completed" → row ∈ st.deployments) ∧
    (∀ di now2, ((register_device st di now2).2).deployments = st.deployments) ∧
    (∀ hash p md,
      ((register_image hash cfg st p md).2).deployments = st.deployments) ∧
    (∀ d2, ((cleanup_deployment cfg st d2).2).deployments = st.deployments) := by
  by_cases h1 : method = "pxe"
  · subst h1
    simp only [deploy_image_to_device, hdev, himg, String.reduceEq, reduceIte]
    refine ⟨(deploy_finalize_spec st.deployments _ _ now _
        ((deploy_via_pxe_frame cfg _ dev img _).1) ?_
        ((deploy_via_pxe_frame cfg _ dev img _).2)).1,
      (deploy_finalize_spec st.deployments _ _ now _
        ((deploy_via_pxe_frame cfg _ dev img _).1) ?_
        ((deploy_via_pxe_frame cfg _ dev img _).2)).2,
      fun di now2 => register_device_preserves_deployments st di now2,
      fun hash p md => register_image_preserves_deployments hash cfg st p md,
      fun d2 => cleanup_preserves_deployments cfg st d2⟩
    · rfl
    · rfl
  · by_cases h2 : method = "usb"
    · subst h2
      simp only [deploy_image_to_device, hdev, himg, String.reduceEq,
        reduceIte]
      refine ⟨(deploy_finalize_spec st.deployments _ _ now _
          ((deploy_via_usb_frame _ dev img _ now).1) ?_
          ((deploy_via_usb_frame _ dev img _ now).2)).1,
        (deploy_finalize_spec st.deployments _ _ now _
          ((deploy_via_usb_frame _ dev img _ now).1) ?_
          ((deploy_via_usb_frame _ dev img _ now).2)).2,
        fun di now2 => register_device_preserves_deployments st di now2,
        fun hash p md => register_image_preserves_deployments hash cfg st p md,
        fun d2 => cleanup_preserves_deployments cfg st d2⟩
      · rfl
      · rfl
    · by_cases h3 : method = "network"
      · subst h3
        simp only [deploy_image_to_device, hdev, himg, String.reduceEq,
          reduceIte]
        refine ⟨(deploy_finalize_spec st.deployments _ _ now _
            ((deploy_via_network_frame cfg _ dev img _).1) ?_
            ((deploy_via_network_frame cfg _ dev img _).2)).1,
          (deploy_finalize_spec st.deployments _ _ now _
            ((deploy_via_network_frame cfg _ dev img _).1) ?_
            ((deploy_via_network_frame cfg _ dev img _).2)).2,
          fun di now2 => register_device_preserves_deployments st di now2,
          fun hash p md =>
            register_image_preserves_deployments hash cfg st p md,
          fun d2 => cleanup_preserves_deployments cfg st d2⟩
        · rfl
        · rfl
      · simp only [deploy_image_to_device, hdev, himg, if_neg h1, if_neg h2,
          if_neg h3]
        refine ⟨?_, ?_,
          fun di now2 => register_device_preserves_deployments st di now2,
          fun hash p md =>
            register_image_preserves_deployments hash cfg st p md,
          fun d2 => cleanup_preserves_deployments cfg st d2⟩
        · simpa using (deploy_finalize_spec st.deployments _
            (deploymentIdFor ts device_id) now
            ({ success := false,
               error := some ("Unsupported deployment method: " ++ method) },
             { devices := st.devices, images := st.images,
               deployments := st.deployments ++
                 [{ deployment_id := deploymentIdFor ts device_id,
                    device_id := device_id, image_id := image_id,
                    deployment_method := method, status := "pending",
                    progress := 0, started_at := some now,
                    completed_at := none, error_message := none }],
               files := st.files, textFiles := st.textFiles })
            rfl rfl (fun _ => rfl)).1
        · simpa using (deploy_finalize_spec st.deployments _
            (deploymentIdFor ts device_id) now
            ({ success := false,
               error := some ("Unsupported deployment method: " ++ method) },
             { devices := st.devices, images := st.images,
               deployments := st.deployments ++
                 [{ deployment_id := deploymentIdFor ts device_id,
                    device_id := device_id, image_id := image_id,
                    deployment_method := method, status := "pending",
                    progress := 0, started_at := some now,
                    completed_at := none, error_message := none }],
               files := st.files, textFiles := st.textFiles })
            rfl rfl (fun _ => rfl)).2

/-- The registered device used by the C9 witness. -/
def devC9 : DeviceRow :=
  { device_id := "aabbccddeeff", mac_address := "aa:bb:cc:dd:ee:ff",
    ip_address := none, hostname := none, hardware_profile := "{}",
    current_image := none, target_image := none, status := "registered",
    location := none, assigned_user := none, last_seen := some "t0",
    created_at := "t0", updated_at := "t0" }

/-- The registered image used by the C9 witness. -/
def imgC9 : ImageRow :=
  { image_id := "kiosk-2.0-1-", name := "kiosk", version := "2.0",
    description := "", file_path := "/var/www/html/images/base.img",
    file_size := 1, sha256_hash := "1-", metadata := "" }

/-- State holding the C9 device and image. -/
def stC9 : MState :=
  { emptyState with devices := [devC9], images := [imgC9] }

/-- Witness for the C9 theorem: a `network` deploy of the witness device
and image. -/
theorem deploy_status_transition_witness :
    (∀ row ∈ ((deploy_image_to_device cfg0 stC9 "aabbccddeeff"
        "kiosk-2.0-1-" "network" "20260101-000000" "t1").2).deployments,
      row.deployment_id = deploymentIdFor "20260101-000000" "aabbccddeeff" →
        row.status = (if ((deploy_image_to_device cfg0 stC9 "aabbccddeeff"
            "kiosk-2.0-1-" "network" "20260101-000000" "t1").1).success
            then "deploying" else "failed") ∧
        row.started_at = some "t1" ∧
        (((deploy_image_to_device cfg0 stC9 "aabbccddeeff"
            "kiosk-2.0-1-" "network" "20260101-000000" "t1").1).success = false →
          row.error_message.isSome = true)) ∧
    (∀ row ∈ ((deploy_image_to_device cfg0 stC9 "aabbccddeeff"
        "kiosk-2.0-1-" "network" "20260101-000000" "t1").2).deployments,
      row.status = "completed" → row ∈ stC9.deployments) ∧
    (∀ di now2,
      ((register_device stC9 di now2).2).deployments = stC9.deployments) ∧
    (∀ hash p md,
      ((register_image hash cfg0 stC9 p md).2).deployments
        = stC9.deployments) ∧
    (∀ d2,
      ((cleanup_deployment cfg0 stC9 d2).2).deployments
        = stC9.deployments) :=
  deploy_status_transition cfg0 stC9 "aabbccddeeff" "kiosk-2.0-1-"
    "network" "20260101-000000" "t1" devC9 imgC9 (by decide) (by decide)

end DeviceManager
